import Mathlib

/-!
Verification of the ephais-error crate (src/lib.rs): a shallow embedding of
the Severity / ErrorContext / Error data model, its Display rendering, its
cause-chain lookup and its constructors, together with theorems settling the
specification claims.
-/

namespace EphaisError

/-- Error severity classification (enum Severity in src/lib.rs). -/
inductive Severity where
  | Critical
  | Error
  | Warning
  | Info
deriving DecidableEq

/-- Display for Severity: the fixed four-letter tag of each severity. -/
def Severity.display : Severity → String
  | .Critical => "CRIT"
  | .Error => "ERR"
  | .Warning => "WARN"
  | .Info => "INFO"

/-- The wrapped underlying cause: an opaque boxed dynamic error object whose
only observable used by this crate is its own textual rendering (Display). -/
structure Cause where
  message : String
deriving DecidableEq

/-- The textual rendering of a wrapped cause. -/
def Cause.display (c : Cause) : String := c.message

/-- The metadata mapping of an ErrorContext (HashMap of String to String in
the source), embedded as an association list with unique keys. -/
abbrev Metadata := List (String × String)

/-- Detailed error context (struct ErrorContext in src/lib.rs). -/
structure ErrorContext where
  reference : String
  severity : Severity
  description : String
  metadata : Metadata
deriving DecidableEq

/-- Display for ErrorContext, from src/lib.rs lines 42-50. -/
def ErrorContext.display (ctx : ErrorContext) : String :=
  ctx.severity.display ++ " | Ref: " ++ ctx.reference ++ " | " ++ ctx.description

/-- Core error type for the ecosystem (enum Error in src/lib.rs): one case
per domain kind; FileSystem and External always wrap a source error, the
other kinds wrap one optionally. -/
inductive Error where
  | Network (ctx : ErrorContext) (src : Option Cause)
  | DataFormat (ctx : ErrorContext) (src : Option Cause)
  | Unknown (ctx : ErrorContext) (src : Option Cause)
  | FileSystem (ctx : ErrorContext) (src : Cause)
  | External (ctx : ErrorContext) (src : Cause)
  | Scp (ctx : ErrorContext) (src : Option Cause)
deriving DecidableEq

/-- Display for Error, from src/lib.rs lines 70-105 arm by arm. -/
def Error.display : Error → String
  | .Network ctx (some src) => "[NETWORK] " ++ ctx.display ++ " | Source: " ++ src.display
  | .Network ctx none => "[NETWORK] " ++ ctx.display
  | .DataFormat ctx (some src) => "[DATA FORMAT] " ++ ctx.display ++ " | Source: " ++ src.display
  | .DataFormat ctx none => "[DATA FORMAT] " ++ ctx.display
  | .Unknown ctx (some src) => "[UNKNOWN] " ++ ctx.display ++ " | Source: " ++ src.display
  | .Unknown ctx none => "[UNKNOWN] " ++ ctx.display
  | .FileSystem ctx src => "[FILE SYSTEM] " ++ ctx.display ++ " | Source: " ++ src.display
  | .External ctx src => "[EXTERNAL] " ++ ctx.display ++ " | Source: " ++ src.display
  | .Scp ctx (some src) => "[SCP] " ++ ctx.display ++ " | Source: " ++ src.display
  | .Scp ctx none => "[SCP] " ++ ctx.display

/-- The cause-chain lookup (impl StdError for Error, src/lib.rs lines 107-126). -/
def Error.source : Error → Option Cause
  | .Network _ (some src) | .DataFormat _ (some src)
  | .Unknown _ (some src) | .Scp _ (some src) => some src
  | .FileSystem _ src | .External _ src => some src
  | .Network _ none | .DataFormat _ none
  | .Unknown _ none | .Scp _ none => none

/-- The ErrorContext owned by an error; each variant's first field, a public
field in the source. -/
def Error.ctx : Error → ErrorContext
  | .Network ctx _ | .DataFormat ctx _ | .Unknown ctx _
  | .FileSystem ctx _ | .External ctx _ | .Scp ctx _ => ctx

/-- The stored full reference of an error (its context's reference field). -/
def Error.reference (e : Error) : String := e.ctx.reference

/-- The stored severity of an error (its context's severity field). -/
def Error.severity (e : Error) : Severity := e.ctx.severity

/-- The stored description of an error (its context's description field). -/
def Error.description (e : Error) : String := e.ctx.description

/-- ErrorContext::new from src/lib.rs lines 128-137: builds a context with
empty metadata. -/
def ErrorContext.new (reference : String) (severity : Severity)
    (description : String) : ErrorContext :=
  { reference := reference
    severity := severity
    description := description
    metadata := [] }

/-- Error::network (no source), src/lib.rs. -/
def Error.network (reference description : String) : Error :=
  .Network (ErrorContext.new ("NET-" ++ reference) .Error description) none

/-- Error::network_with_source, src/lib.rs. -/
def Error.network_with_source (reference description : String)
    (source : Cause) : Error :=
  .Network (ErrorContext.new ("NET-" ++ reference) .Error description) (some source)

/-- Error::data_format (no source), src/lib.rs. -/
def Error.data_format (reference description : String) : Error :=
  .DataFormat (ErrorContext.new ("FMT-" ++ reference) .Error description) none

/-- Error::data_format_with_source, src/lib.rs. -/
def Error.data_format_with_source (reference description : String)
    (source : Cause) : Error :=
  .DataFormat (ErrorContext.new ("FMT-" ++ reference) .Error description) (some source)

/-- Error::unknown (no source, caller-chosen severity), src/lib.rs. -/
def Error.unknown (reference description : String) (severity : Severity) : Error :=
  .Unknown (ErrorContext.new ("UNK-" ++ reference) severity description) none

/-- Error::unknown_with_source (caller-chosen severity), src/lib.rs. -/
def Error.unknown_with_source (reference description : String)
    (severity : Severity) (source : Cause) : Error :=
  .Unknown (ErrorContext.new ("UNK-" ++ reference) severity description) (some source)

/-- Error::file_system, src/lib.rs lines 201-216: assembles its ErrorContext
inline as a record literal rather than via ErrorContext::new. -/
def Error.file_system (reference description : String) (source : Cause) : Error :=
  .FileSystem
    { reference := "FSY-" ++ reference
      severity := .Error
      description := description
      metadata := [] }
    source

/-- Error::scp (no source), src/lib.rs. -/
def Error.scp (reference description : String) : Error :=
  .Scp (ErrorContext.new ("SCP-" ++ reference) .Error description) none

/-- Error::scp_with_source, src/lib.rs. -/
def Error.scp_with_source (reference description : String)
    (source : Cause) : Error :=
  .Scp (ErrorContext.new ("SCP-" ++ reference) .Error description) (some source)

/-- Error::external, src/lib.rs lines 238-253: assembles its ErrorContext
inline as a record literal rather than via ErrorContext::new. -/
def Error.external (reference description : String) (source : Cause) : Error :=
  .External
    { reference := "EXT-" ++ reference
      severity := .Error
      description := description
      metadata := [] }
    source

/-- A standard result type for the ecosystem (type Result in src/lib.rs):
the failure arm is fixed to Error. -/
abbrev Result (T : Type) := Except Error T

/-- Modelled from the spec: the metadata-insertion builder operation is not
present in src/lib.rs (only the metadata field and HashMap type are); the
spec says metadata is a mapping with unique keys, mutable only through the
owning Error's builder operations, and that inserting the same key twice
overwrites rather than duplicating. This is insertion into the association
list with HashMap::insert semantics: the value of an existing key is
replaced, a new key is appended. -/
def Metadata.insert : Metadata → String → String → Metadata
  | [], key, value => [(key, value)]
  | (k, v) :: rest, key, value =>
    if k = key then (key, value) :: rest
    else (k, v) :: Metadata.insert rest key value

/-- Modelled from the spec: the owning Error's builder operation inserting a
metadata entry, consuming and returning the error value. -/
def Error.with_metadata (e : Error) (key value : String) : Error :=
  match e with
  | .Network ctx src =>
      .Network { ctx with metadata := Metadata.insert ctx.metadata key value } src
  | .DataFormat ctx src =>
      .DataFormat { ctx with metadata := Metadata.insert ctx.metadata key value } src
  | .Unknown ctx src =>
      .Unknown { ctx with metadata := Metadata.insert ctx.metadata key value } src
  | .FileSystem ctx src =>
      .FileSystem { ctx with metadata := Metadata.insert ctx.metadata key value } src
  | .External ctx src =>
      .External { ctx with metadata := Metadata.insert ctx.metadata key value } src
  | .Scp ctx src =>
      .Scp { ctx with metadata := Metadata.insert ctx.metadata key value } src

/-- Replaces the whole metadata mapping of an error, keeping every other
field; used to state that two errors differing only in metadata render
identically. -/
def Error.set_metadata (e : Error) (m : Metadata) : Error :=
  match e with
  | .Network ctx src => .Network { ctx with metadata := m } src
  | .DataFormat ctx src => .DataFormat { ctx with metadata := m } src
  | .Unknown ctx src => .Unknown { ctx with metadata := m } src
  | .FileSystem ctx src => .FileSystem { ctx with metadata := m } src
  | .External ctx src => .External { ctx with metadata := m } src
  | .Scp ctx src => .Scp { ctx with metadata := m } src

/-- Modelled from the spec: the propagation adapters (spec 4.7) are not in
src/lib.rs (only the Result alias is). Given a reference and a description,
an adapter maps the failure arm of a result over a describable foreign error
into a freshly constructed Error at a fixed severity, with description set
to the supplied description followed by ": " and the foreign error's textual
form, and with the foreign error kept as the wrapped cause; success values
pass through unchanged. The error is built through the sanctioned
unknown_with_source constructor, the only one accepting a caller-chosen
severity. -/
def map_err_with {α : Type} (sev : Severity) (reference description : String) :
    Except Cause α → Result α
  | .ok a => .ok a
  | .error c =>
    .error (Error.unknown_with_source reference
      (description ++ ": " ++ c.display) sev c)

/-- Modelled from the spec: the informational propagation adapter variant. -/
def map_err_info {α : Type} (reference description : String)
    (r : Except Cause α) : Result α :=
  map_err_with .Info reference description r

/-- Modelled from the spec: the standard-error propagation adapter variant. -/
def map_err_std {α : Type} (reference description : String)
    (r : Except Cause α) : Result α :=
  map_err_with .Error reference description r

/-- Modelled from the spec: the critical propagation adapter variant. -/
def map_err_crit {α : Type} (reference description : String)
    (r : Except Cause α) : Result α :=
  map_err_with .Critical reference description r

/-- The error held by a failed result, if any; used to state the adapter
claims through the accessors. -/
def errOf {α : Type} : Result α → Option Error
  | .ok _ => none
  | .error e => some e

end EphaisError

namespace EphaisError

/-- Inserting into a metadata mapping under the same key twice overwrites:
the second insertion yields the same mapping as inserting the second value
directly. -/
theorem metadata_insert_overwrite (m : Metadata) (k v₁ v₂ : String) :
    Metadata.insert (Metadata.insert m k v₁) k v₂ = Metadata.insert m k v₂ := by
  induction m with
  | nil => simp [Metadata.insert]
  | cons hd tl ih =>
    obtain ⟨k', v'⟩ := hd
    by_cases h : k' = k <;> simp [Metadata.insert, h, ih]

/-- Claim C1: for every kind with a no-cause constructor (Network,
DataFormat, Unknown, Scp) and all reference suffix r and description d, the
Display rendering of the error constructed without a cause is exactly
"[KIND-TAG] SEVERITY-TAG | Ref: PREFIX-r | d"; in particular
Error.network "TIMEOUT" "Connection timeout" renders exactly
"[NETWORK] ERR | Ref: NET-TIMEOUT | Connection timeout". FileSystem and
External have no no-cause constructor: they necessarily carry a cause. -/
theorem display_without_cause_exact (r d : String) (sev : Severity) :
    (Error.network r d).display = "[NETWORK] ERR | Ref: NET-" ++ r ++ " | " ++ d ∧
    (Error.data_format r d).display = "[DATA FORMAT] ERR | Ref: FMT-" ++ r ++ " | " ++ d ∧
    (Error.unknown r d sev).display
      = "[UNKNOWN] " ++ sev.display ++ " | Ref: UNK-" ++ r ++ " | " ++ d ∧
    (Error.scp r d).display = "[SCP] ERR | Ref: SCP-" ++ r ++ " | " ++ d ∧
    (Error.network "TIMEOUT" "Connection timeout").display
      = "[NETWORK] ERR | Ref: NET-TIMEOUT | Connection timeout" := by
  refine ⟨?_, ?_, ?_, ?_, ?_⟩ <;>
    cases sev <;>
      simp [Error.network, Error.data_format, Error.unknown, Error.scp,
        Error.display, ErrorContext.new, ErrorContext.display,
        Severity.display, ← String.append_assoc]

/-- Claim C2: FileSystem and External errors always carry a cause: the
sanctioned constructors require a cause argument and return it through the
cause-chain lookup, and every value of those two variants (whatever produced
it) yields a cause from the lookup, since the variants' cause field is not
optional. -/
theorem file_system_external_always_have_cause
    (r d : String) (c : Cause) (ctx : ErrorContext) (s : Cause) :
    (Error.file_system r d c).source = some c ∧
    (Error.external r d c).source = some c ∧
    (Error.FileSystem ctx s).source = some s ∧
    (Error.External ctx s).source = some s :=
  ⟨rfl, rfl, rfl, rfl⟩

/-- Claim C3: for every kind, constructing with a cause whose rendering is
c.display yields a Display output that is the no-cause rendering followed by
" | Source: " and the cause's rendering (hence ends with " | Source: T"),
and the cause-chain lookup returns exactly that cause. -/
theorem display_with_cause_source_suffix (r d : String) (sev : Severity) (c : Cause) :
    (Error.network_with_source r d c).display
      = "[NETWORK] ERR | Ref: NET-" ++ r ++ " | " ++ d ++ " | Source: " ++ c.display ∧
    (Error.network_with_source r d c).source = some c ∧
    (Error.data_format_with_source r d c).display
      = "[DATA FORMAT] ERR | Ref: FMT-" ++ r ++ " | " ++ d ++ " | Source: " ++ c.display ∧
    (Error.data_format_with_source r d c).source = some c ∧
    (Error.unknown_with_source r d sev c).display
      = "[UNKNOWN] " ++ sev.display ++ " | Ref: UNK-" ++ r ++ " | " ++ d
          ++ " | Source: " ++ c.display ∧
    (Error.unknown_with_source r d sev c).source = some c ∧
    (Error.file_system r d c).display
      = "[FILE SYSTEM] ERR | Ref: FSY-" ++ r ++ " | " ++ d ++ " | Source: " ++ c.display ∧
    (Error.file_system r d c).source = some c ∧
    (Error.scp_with_source r d c).display
      = "[SCP] ERR | Ref: SCP-" ++ r ++ " | " ++ d ++ " | Source: " ++ c.display ∧
    (Error.scp_with_source r d c).source = some c ∧
    (Error.external r d c).display
      = "[EXTERNAL] ERR | Ref: EXT-" ++ r ++ " | " ++ d ++ " | Source: " ++ c.display ∧
    (Error.external r d c).source = some c := by
  refine ⟨?_, rfl, ?_, rfl, ?_, rfl, ?_, rfl, ?_, rfl, ?_, rfl⟩ <;>
    cases sev <;>
      simp [Error.network_with_source, Error.data_format_with_source,
        Error.unknown_with_source, Error.file_system, Error.scp_with_source,
        Error.external, Error.display, ErrorContext.new, ErrorContext.display,
        Severity.display, ← String.append_assoc]

/-- Claim C4: the Severity rendering maps each severity into the set of four
tags CRIT, ERR, WARN, INFO, and the mapping is injective. -/
theorem severity_display_range_and_injective (s t : Severity) :
    (s.display = "CRIT" ∨ s.display = "ERR" ∨ s.display = "WARN" ∨ s.display = "INFO") ∧
    (s.display = t.display → s = t) := by
  cases s <;> cases t <;> decide

/-- Witness for claim C4 at the concrete severity Error: its tag is in the
range and injectivity applies at equal renderings. -/
theorem severity_display_range_and_injective_witness :
    (Severity.Error.display = "CRIT" ∨ Severity.Error.display = "ERR" ∨
     Severity.Error.display = "WARN" ∨ Severity.Error.display = "INFO") ∧
    Severity.Error = Severity.Error :=
  ⟨(severity_display_range_and_injective Severity.Error Severity.Error).1,
   (severity_display_range_and_injective Severity.Error Severity.Error).2 rfl⟩

/-- Claim C5: each domain constructor stores as full reference its kind's
fixed prefix concatenated with the supplied suffix, likewise for the
with-source forms. -/
theorem constructors_prefix_reference (r d : String) (sev : Severity) (c : Cause) :
    (Error.network r d).reference = "NET-" ++ r ∧
    (Error.network_with_source r d c).reference = "NET-" ++ r ∧
    (Error.data_format r d).reference = "FMT-" ++ r ∧
    (Error.data_format_with_source r d c).reference = "FMT-" ++ r ∧
    (Error.unknown r d sev).reference = "UNK-" ++ r ∧
    (Error.unknown_with_source r d sev c).reference = "UNK-" ++ r ∧
    (Error.file_system r d c).reference = "FSY-" ++ r ∧
    (Error.external r d c).reference = "EXT-" ++ r ∧
    (Error.scp r d).reference = "SCP-" ++ r ∧
    (Error.scp_with_source r d c).reference = "SCP-" ++ r :=
  ⟨rfl, rfl, rfl, rfl, rfl, rfl, rfl, rfl, rfl, rfl⟩

/-- Claim C6: the Network, DataFormat, FileSystem, External and Scp
constructors store severity Error; unknown and unknown_with_source store
exactly the caller-chosen severity. -/
theorem constructors_severity (r d : String) (sev : Severity) (c : Cause) :
    (Error.network r d).severity = Severity.Error ∧
    (Error.network_with_source r d c).severity = Severity.Error ∧
    (Error.data_format r d).severity = Severity.Error ∧
    (Error.data_format_with_source r d c).severity = Severity.Error ∧
    (Error.file_system r d c).severity = Severity.Error ∧
    (Error.external r d c).severity = Severity.Error ∧
    (Error.scp r d).severity = Severity.Error ∧
    (Error.scp_with_source r d c).severity = Severity.Error ∧
    (Error.unknown r d sev).severity = sev ∧
    (Error.unknown_with_source r d sev c).severity = sev :=
  ⟨rfl, rfl, rfl, rfl, rfl, rfl, rfl, rfl, rfl, rfl⟩

/-- Claim C7: the cause-chain lookup returns none exactly on the no-cause
constructors (network, data_format, unknown, scp), and on every with-source
constructor it returns the wrapped cause supplied at construction. -/
theorem source_none_iff_no_cause_constructor (r d : String) (sev : Severity) (c : Cause) :
    (Error.network r d).source = none ∧
    (Error.data_format r d).source = none ∧
    (Error.unknown r d sev).source = none ∧
    (Error.scp r d).source = none ∧
    (Error.network_with_source r d c).source = some c ∧
    (Error.data_format_with_source r d c).source = some c ∧
    (Error.unknown_with_source r d sev c).source = some c ∧
    (Error.scp_with_source r d c).source = some c ∧
    (Error.file_system r d c).source = some c ∧
    (Error.external r d c).source = some c :=
  ⟨rfl, rfl, rfl, rfl, rfl, rfl, rfl, rfl, rfl, rfl⟩

/-- Claim C8: metadata insertion on an Error is idempotent per key (the
second insertion under the same key overwrites), the canonical Display
output of two errors differing only in metadata is identical, and metadata
insertion leaves the Display output unchanged. -/
theorem metadata_insert_idempotent_display_independent
    (e : Error) (k v₁ v₂ : String) (m m' : Metadata) :
    (e.with_metadata k v₁).with_metadata k v₂ = e.with_metadata k v₂ ∧
    (e.set_metadata m).display = (e.set_metadata m').display ∧
    (e.with_metadata k v₁).display = e.display := by
  refine ⟨?_, ?_, ?_⟩
  · cases e <;> simp [Error.with_metadata, metadata_insert_overwrite]
  · cases e <;> first
      | rfl
      | (rename_i ctx src; cases src <;> rfl)
  · cases e <;> first
      | rfl
      | (rename_i ctx src; cases src <;> rfl)

/-- Claim C9: the propagation adapter variants pass success values through
unchanged, and on a failure with textual form c.display each produces an
Error whose severity matches the variant (Info, Error, Critical), whose
description is the supplied description followed by ": " and the failure's
textual form, and whose cause renders to that same text. -/
theorem propagation_adapters_behavior {α : Type} (r d : String) (c : Cause) (a : α) :
    map_err_info r d (Except.ok a) = Except.ok a ∧
    map_err_std r d (Except.ok a) = Except.ok a ∧
    map_err_crit r d (Except.ok a) = Except.ok a ∧
    (errOf (map_err_info r d (Except.error c : Except Cause α))).map Error.severity = some Severity.Info ∧
    (errOf (map_err_std r d (Except.error c : Except Cause α))).map Error.severity = some Severity.Error ∧
    (errOf (map_err_crit r d (Except.error c : Except Cause α))).map Error.severity = some Severity.Critical ∧
    (errOf (map_err_info r d (Except.error c : Except Cause α))).map Error.description
      = some (d ++ ": " ++ c.display) ∧
    (errOf (map_err_std r d (Except.error c : Except Cause α))).map Error.description
      = some (d ++ ": " ++ c.display) ∧
    (errOf (map_err_crit r d (Except.error c : Except Cause α))).map Error.description
      = some (d ++ ": " ++ c.display) ∧
    ((errOf (map_err_info r d (Except.error c : Except Cause α))).bind Error.source).map Cause.display
      = some c.display ∧
    ((errOf (map_err_std r d (Except.error c : Except Cause α))).bind Error.source).map Cause.display
      = some c.display ∧
    ((errOf (map_err_crit r d (Except.error c : Except Cause α))).bind Error.source).map Cause.display
      = some c.display :=
  ⟨rfl, rfl, rfl, rfl, rfl, rfl, rfl, rfl, rfl, rfl, rfl, rfl⟩

/-- Claim C10: the ErrorContext assembled inline by file_system and external
is identical to the one obtained through ErrorContext.new with the same
prefixed reference, severity Error and the same description: same reference,
severity, description and empty metadata. -/
theorem file_system_external_context_paths_equivalent (r d : String) (c : Cause) :
    (Error.file_system r d c).ctx = ErrorContext.new ("FSY-" ++ r) Severity.Error d ∧
    (Error.external r d c).ctx = ErrorContext.new ("EXT-" ++ r) Severity.Error d :=
  ⟨rfl, rfl⟩

end EphaisError
